import Mathlib

/-!
Verification of the Metal adapter capability core (`wgpu-hal/src/metal/adapter.rs`):
the capability probe (`PrivateCapabilities::new`), the format capability resolver
(`texture_format_capabilities`), the format mapping table (`map_format`), and the
feature-set projection (`features`), shallowly embedded as executable Lean
functions, together with theorems settling the specification's claims about them.
-/

set_option maxHeartbeats 2000000
set_option maxRecDepth 100000

namespace Wgpu

/-- The Metal read-write texture tier (`mtl::MTLReadWriteTextureTier`). -/
inductive MTLReadWriteTextureTier
  | TierNone
  | Tier1
  | Tier2
deriving DecidableEq, Repr

/-- The Metal shading-language version (`mtl::MTLLanguageVersion`). -/
inductive MTLLanguageVersion
  | V1_0
  | V1_1
  | V1_2
  | V2_0
  | V2_1
  | V2_2
deriving DecidableEq, Repr

/-- Numeric discriminant of each language version, as declared in the `mtl`
crate (`(major << 16) + minor`); the Rust `>=` on the enum compares these. -/
def MTLLanguageVersion.code : MTLLanguageVersion → Nat
  | .V1_0 => 0x10000
  | .V1_1 => 0x10001
  | .V1_2 => 0x10002
  | .V2_0 => 0x20000
  | .V2_1 => 0x20001
  | .V2_2 => 0x20002

/-- Rust `a >= b` on `MTLLanguageVersion` (derived ordering on discriminants). -/
def MTLLanguageVersion.vge (a b : MTLLanguageVersion) : Bool :=
  Nat.ble b.code a.code

/-- The Metal feature sets referenced by this adapter file
(`mtl::MTLFeatureSet`, restricted to the members that occur in the source). -/
inductive MTLFeatureSet
  | iOS_GPUFamily1_v1
  | iOS_GPUFamily1_v2
  | iOS_GPUFamily1_v3
  | iOS_GPUFamily1_v4
  | iOS_GPUFamily2_v1
  | iOS_GPUFamily2_v2
  | iOS_GPUFamily2_v3
  | iOS_GPUFamily2_v4
  | iOS_GPUFamily3_v1
  | iOS_GPUFamily3_v2
  | iOS_GPUFamily3_v3
  | iOS_GPUFamily4_v1
  | iOS_GPUFamily4_v2
  | iOS_GPUFamily5_v1
  | tvOS_GPUFamily1_v1
  | tvOS_GPUFamily1_v2
  | tvOS_GPUFamily1_v3
  | tvOS_GPUFamily2_v1
  | macOS_GPUFamily1_v1
  | macOS_GPUFamily1_v2
  | macOS_GPUFamily1_v3
  | macOS_GPUFamily1_v4
  | macOS_GPUFamily2_v1
deriving DecidableEq, Repr

/-- The Metal GPU families referenced by this adapter file (`mtl::MTLGPUFamily`,
restricted to the members that occur in the source). -/
inductive MTLGPUFamily
  | Apple3
  | Apple6
  | Mac1
  | Mac2
  | MacCatalyst1
  | MacCatalyst2
deriving DecidableEq, Repr

/-- The portable texture-format enumeration (`wgt::TextureFormat`), exactly the
variants matched by `map_format` and `texture_format_capabilities`. -/
inductive TextureFormat
  | R8Unorm
  | R8Snorm
  | R8Uint
  | R8Sint
  | R16Uint
  | R16Sint
  | R16Float
  | Rg8Unorm
  | Rg8Snorm
  | Rg8Uint
  | Rg8Sint
  | R32Uint
  | R32Sint
  | R32Float
  | Rg16Uint
  | Rg16Sint
  | Rg16Float
  | Rgba8Unorm
  | Rgba8UnormSrgb
  | Bgra8UnormSrgb
  | Rgba8Snorm
  | Bgra8Unorm
  | Rgba8Uint
  | Rgba8Sint
  | Rgb10a2Unorm
  | Rg11b10Float
  | Rg32Uint
  | Rg32Sint
  | Rg32Float
  | Rgba16Uint
  | Rgba16Sint
  | Rgba16Float
  | Rgba32Uint
  | Rgba32Sint
  | Rgba32Float
  | Depth32Float
  | Depth24Plus
  | Depth24PlusStencil8
  | Rgb9e5Ufloat
  | Bc1RgbaUnorm
  | Bc1RgbaUnormSrgb
  | Bc2RgbaUnorm
  | Bc2RgbaUnormSrgb
  | Bc3RgbaUnorm
  | Bc3RgbaUnormSrgb
  | Bc4RUnorm
  | Bc4RSnorm
  | Bc5RgUnorm
  | Bc5RgSnorm
  | Bc6hRgbUfloat
  | Bc6hRgbSfloat
  | Bc7RgbaUnorm
  | Bc7RgbaUnormSrgb
  | Etc2RgbUnorm
  | Etc2RgbUnormSrgb
  | Etc2RgbA1Unorm
  | Etc2RgbA1UnormSrgb
  | EacRUnorm
  | EacRSnorm
  | EacRgUnorm
  | EacRgSnorm
  | Astc4x4RgbaUnorm
  | Astc4x4RgbaUnormSrgb
  | Astc5x4RgbaUnorm
  | Astc5x4RgbaUnormSrgb
  | Astc5x5RgbaUnorm
  | Astc5x5RgbaUnormSrgb
  | Astc6x5RgbaUnorm
  | Astc6x5RgbaUnormSrgb
  | Astc6x6RgbaUnorm
  | Astc6x6RgbaUnormSrgb
  | Astc8x5RgbaUnorm
  | Astc8x5RgbaUnormSrgb
  | Astc8x6RgbaUnorm
  | Astc8x6RgbaUnormSrgb
  | Astc10x5RgbaUnorm
  | Astc10x5RgbaUnormSrgb
  | Astc10x6RgbaUnorm
  | Astc10x6RgbaUnormSrgb
  | Astc8x8RgbaUnorm
  | Astc8x8RgbaUnormSrgb
  | Astc10x8RgbaUnorm
  | Astc10x8RgbaUnormSrgb
  | Astc10x10RgbaUnorm
  | Astc10x10RgbaUnormSrgb
  | Astc12x10RgbaUnorm
  | Astc12x10RgbaUnormSrgb
  | Astc12x12RgbaUnorm
  | Astc12x12RgbaUnormSrgb
deriving DecidableEq, Repr, Fintype

/-- The native pixel-format enumeration (`mtl::MTLPixelFormat`), exactly the
variants produced by `map_format`. -/
inductive MTLPixelFormat
  | R8Unorm
  | R8Snorm
  | R8Uint
  | R8Sint
  | R16Uint
  | R16Sint
  | R16Float
  | RG8Unorm
  | RG8Snorm
  | RG8Uint
  | RG8Sint
  | R32Uint
  | R32Sint
  | R32Float
  | RG16Uint
  | RG16Sint
  | RG16Float
  | RGBA8Unorm
  | RGBA8Unorm_sRGB
  | BGRA8Unorm_sRGB
  | RGBA8Snorm
  | BGRA8Unorm
  | RGBA8Uint
  | RGBA8Sint
  | RGB10A2Unorm
  | RG11B10Float
  | RG32Uint
  | RG32Sint
  | RG32Float
  | RGBA16Uint
  | RGBA16Sint
  | RGBA16Float
  | RGBA32Uint
  | RGBA32Sint
  | RGBA32Float
  | Depth32Float
  | Depth24Unorm_Stencil8
  | Depth32Float_Stencil8
  | RGB9E5Float
  | BC1_RGBA
  | BC1_RGBA_sRGB
  | BC2_RGBA
  | BC2_RGBA_sRGB
  | BC3_RGBA
  | BC3_RGBA_sRGB
  | BC4_RUnorm
  | BC4_RSnorm
  | BC5_RGUnorm
  | BC5_RGSnorm
  | BC6H_RGBFloat
  | BC6H_RGBUfloat
  | BC7_RGBAUnorm
  | BC7_RGBAUnorm_sRGB
  | ETC2_RGB8
  | ETC2_RGB8_sRGB
  | ETC2_RGB8A1
  | ETC2_RGB8A1_sRGB
  | EAC_R11Unorm
  | EAC_R11Snorm
  | EAC_RG11Unorm
  | EAC_RG11Snorm
  | ASTC_4x4_LDR
  | ASTC_4x4_sRGB
  | ASTC_5x4_LDR
  | ASTC_5x4_sRGB
  | ASTC_5x5_LDR
  | ASTC_5x5_sRGB
  | ASTC_6x5_LDR
  | ASTC_6x5_sRGB
  | ASTC_6x6_LDR
  | ASTC_6x6_sRGB
  | ASTC_8x5_LDR
  | ASTC_8x5_sRGB
  | ASTC_8x6_LDR
  | ASTC_8x6_sRGB
  | ASTC_8x8_LDR
  | ASTC_8x8_sRGB
  | ASTC_10x5_LDR
  | ASTC_10x5_sRGB
  | ASTC_10x6_LDR
  | ASTC_10x6_sRGB
  | ASTC_10x8_LDR
  | ASTC_10x8_sRGB
  | ASTC_10x10_LDR
  | ASTC_10x10_sRGB
  | ASTC_12x10_LDR
  | ASTC_12x10_sRGB
  | ASTC_12x12_LDR
  | ASTC_12x12_sRGB
deriving DecidableEq, Repr

/-- The texture-format usage-flag bitset (`crate::TextureFormatCapabilities`),
one Bool per flag bit used in this file. -/
structure Tfc where
  copy_src : Bool
  copy_dst : Bool
  sampled : Bool
  sampled_linear : Bool
  storage_read_write : Bool
  storage : Bool
  color_attachment : Bool
  color_attachment_blend : Bool
  depth_stencil_attachment : Bool
deriving DecidableEq, Repr

/-- The empty flag set (`Tfc::empty()`). -/
def Tfc.empty : Tfc := ⟨false, false, false, false, false, false, false, false, false⟩

/-- Bitwise union of two flag sets (Rust `|` on the bitflags type). -/
def Tfc.or (a b : Tfc) : Tfc :=
  ⟨a.copy_src || b.copy_src,
   a.copy_dst || b.copy_dst,
   a.sampled || b.sampled,
   a.sampled_linear || b.sampled_linear,
   a.storage_read_write || b.storage_read_write,
   a.storage || b.storage,
   a.color_attachment || b.color_attachment,
   a.color_attachment_blend || b.color_attachment_blend,
   a.depth_stencil_attachment || b.depth_stencil_attachment⟩

/-- `Tfc::COPY_SRC`. -/
def Tfc.COPY_SRC : Tfc := ⟨true, false, false, false, false, false, false, false, false⟩

/-- `Tfc::COPY_DST`. -/
def Tfc.COPY_DST : Tfc := ⟨false, true, false, false, false, false, false, false, false⟩

/-- `Tfc::SAMPLED`. -/
def Tfc.SAMPLED : Tfc := ⟨false, false, true, false, false, false, false, false, false⟩

/-- `Tfc::SAMPLED_LINEAR`. -/
def Tfc.SAMPLED_LINEAR : Tfc := ⟨false, false, false, true, false, false, false, false, false⟩

/-- `Tfc::STORAGE_READ_WRITE`. -/
def Tfc.STORAGE_READ_WRITE : Tfc := ⟨false, false, false, false, true, false, false, false, false⟩

/-- `Tfc::STORAGE`. -/
def Tfc.STORAGE : Tfc := ⟨false, false, false, false, false, true, false, false, false⟩

/-- `Tfc::COLOR_ATTACHMENT`. -/
def Tfc.COLOR_ATTACHMENT : Tfc := ⟨false, false, false, false, false, false, true, false, false⟩

/-- `Tfc::COLOR_ATTACHMENT_BLEND`. -/
def Tfc.COLOR_ATTACHMENT_BLEND : Tfc := ⟨false, false, false, false, false, false, false, true, false⟩

/-- `Tfc::DEPTH_STENCIL_ATTACHMENT`. -/
def Tfc.DEPTH_STENCIL_ATTACHMENT : Tfc := ⟨false, false, false, false, false, false, false, false, true⟩

/-- `flags.set(Tfc::STORAGE, b)`: overwrite the storage bit with `b`. -/
def Tfc.setStorage (a : Tfc) (b : Bool) : Tfc :=
  { a with storage := b }

/-- The native device handle (`mtl::Device`), modelled by its query answers:
the probe treats the device as a read-only oracle for feature-set membership,
GPU-family membership, the read-write texture tier, combined depth24-stencil8
support, power/headless class, and per-sample-count support. -/
structure Device where
  supports_feature_set : MTLFeatureSet → Bool
  supports_family : MTLGPUFamily → Bool
  read_write_texture_support : MTLReadWriteTextureTier
  d24_s8_supported : Bool
  is_low_power : Bool
  is_headless : Bool
  supports_texture_sample_count : Nat → Bool

/-- `RESOURCE_HEAP_SUPPORT` feature-tier table. -/
def RESOURCE_HEAP_SUPPORT : List MTLFeatureSet :=
  [.iOS_GPUFamily1_v3, .iOS_GPUFamily2_v3, .iOS_GPUFamily3_v2, .iOS_GPUFamily4_v1,
   .iOS_GPUFamily5_v1, .tvOS_GPUFamily1_v2, .tvOS_GPUFamily2_v1, .macOS_GPUFamily1_v3,
   .macOS_GPUFamily2_v1]

/-- `ARGUMENT_BUFFER_SUPPORT` feature-tier table. -/
def ARGUMENT_BUFFER_SUPPORT : List MTLFeatureSet :=
  [.iOS_GPUFamily1_v4, .iOS_GPUFamily2_v4, .iOS_GPUFamily3_v3, .iOS_GPUFamily4_v1,
   .iOS_GPUFamily5_v1, .tvOS_GPUFamily1_v3, .macOS_GPUFamily1_v3, .macOS_GPUFamily2_v1]

/-- `MUTABLE_COMPARISON_SAMPLER_SUPPORT` feature-tier table. -/
def MUTABLE_COMPARISON_SAMPLER_SUPPORT : List MTLFeatureSet :=
  [.iOS_GPUFamily3_v1, .iOS_GPUFamily4_v1, .iOS_GPUFamily5_v1, .macOS_GPUFamily1_v1,
   .macOS_GPUFamily2_v1]

/-- `SAMPLER_CLAMP_TO_BORDER_SUPPORT` feature-tier table. -/
def SAMPLER_CLAMP_TO_BORDER_SUPPORT : List MTLFeatureSet :=
  [.macOS_GPUFamily1_v2, .macOS_GPUFamily2_v1]

/-- `ASTC_PIXEL_FORMAT_FEATURES` feature-tier table. -/
def ASTC_PIXEL_FORMAT_FEATURES : List MTLFeatureSet :=
  [.iOS_GPUFamily2_v1, .iOS_GPUFamily3_v1, .iOS_GPUFamily4_v1, .iOS_GPUFamily5_v1,
   .tvOS_GPUFamily1_v1, .tvOS_GPUFamily2_v1]

/-- `ANY8_UNORM_SRGB_ALL` feature-tier table. -/
def ANY8_UNORM_SRGB_ALL : List MTLFeatureSet :=
  [.iOS_GPUFamily2_v3, .iOS_GPUFamily3_v1, .iOS_GPUFamily4_v1, .iOS_GPUFamily5_v1,
   .tvOS_GPUFamily1_v2, .tvOS_GPUFamily2_v1]

/-- `ANY8_SNORM_RESOLVE` feature-tier table. -/
def ANY8_SNORM_RESOLVE : List MTLFeatureSet :=
  [.iOS_GPUFamily2_v1, .iOS_GPUFamily3_v1, .iOS_GPUFamily4_v1, .iOS_GPUFamily5_v1,
   .tvOS_GPUFamily1_v1, .tvOS_GPUFamily2_v1, .macOS_GPUFamily1_v1, .macOS_GPUFamily2_v1]

/-- `RGBA8_SRGB` feature-tier table. -/
def RGBA8_SRGB : List MTLFeatureSet :=
  [.iOS_GPUFamily2_v3, .iOS_GPUFamily3_v1, .iOS_GPUFamily4_v1, .iOS_GPUFamily5_v1,
   .tvOS_GPUFamily1_v2, .tvOS_GPUFamily2_v1]

/-- `RGB10A2UNORM_ALL` feature-tier table. -/
def RGB10A2UNORM_ALL : List MTLFeatureSet :=
  [.iOS_GPUFamily3_v1, .iOS_GPUFamily4_v1, .iOS_GPUFamily5_v1, .tvOS_GPUFamily2_v1,
   .macOS_GPUFamily1_v1, .macOS_GPUFamily2_v1]

/-- `RGB10A2UINT_COLOR_WRITE` feature-tier table. -/
def RGB10A2UINT_COLOR_WRITE : List MTLFeatureSet :=
  [.iOS_GPUFamily3_v1, .iOS_GPUFamily4_v1, .iOS_GPUFamily5_v1, .tvOS_GPUFamily2_v1,
   .macOS_GPUFamily1_v1, .macOS_GPUFamily2_v1]

/-- `RG11B10FLOAT_ALL` feature-tier table. -/
def RG11B10FLOAT_ALL : List MTLFeatureSet :=
  [.iOS_GPUFamily3_v1, .iOS_GPUFamily4_v1, .iOS_GPUFamily5_v1, .tvOS_GPUFamily2_v1,
   .macOS_GPUFamily1_v1, .macOS_GPUFamily2_v1]

/-- `RGB9E5FLOAT_ALL` feature-tier table. -/
def RGB9E5FLOAT_ALL : List MTLFeatureSet :=
  [.iOS_GPUFamily3_v1, .iOS_GPUFamily4_v1, .iOS_GPUFamily5_v1, .tvOS_GPUFamily2_v1]

/-- `BGR10A2_ALL` feature-tier table. -/
def BGR10A2_ALL : List MTLFeatureSet :=
  [.iOS_GPUFamily1_v4, .iOS_GPUFamily2_v4, .iOS_GPUFamily3_v3, .iOS_GPUFamily4_v1,
   .iOS_GPUFamily5_v1, .tvOS_GPUFamily1_v3, .tvOS_GPUFamily2_v1, .macOS_GPUFamily1_v3,
   .macOS_GPUFamily2_v1]

/-- `BASE_INSTANCE_SUPPORT` feature-tier table. -/
def BASE_INSTANCE_SUPPORT : List MTLFeatureSet :=
  [.iOS_GPUFamily3_v1, .iOS_GPUFamily4_v1, .iOS_GPUFamily5_v1, .tvOS_GPUFamily2_v1,
   .macOS_GPUFamily1_v1, .macOS_GPUFamily2_v1]

/-- `BASE_VERTEX_INSTANCE_SUPPORT` feature-tier table. -/
def BASE_VERTEX_INSTANCE_SUPPORT : List MTLFeatureSet :=
  [.iOS_GPUFamily3_v1, .iOS_GPUFamily4_v1, .iOS_GPUFamily5_v1, .tvOS_GPUFamily2_v1,
   .macOS_GPUFamily1_v1, .macOS_GPUFamily2_v1]

/-- `TEXTURE_CUBE_ARRAY_SUPPORT` feature-tier table. -/
def TEXTURE_CUBE_ARRAY_SUPPORT : List MTLFeatureSet :=
  [.iOS_GPUFamily4_v1, .iOS_GPUFamily5_v1, .tvOS_GPUFamily1_v2, .tvOS_GPUFamily2_v1,
   .macOS_GPUFamily1_v1, .macOS_GPUFamily2_v1]

/-- `DUAL_SOURCE_BLEND_SUPPORT` feature-tier table. -/
def DUAL_SOURCE_BLEND_SUPPORT : List MTLFeatureSet :=
  [.iOS_GPUFamily1_v4, .iOS_GPUFamily2_v4, .iOS_GPUFamily3_v3, .iOS_GPUFamily4_v1,
   .iOS_GPUFamily5_v1, .tvOS_GPUFamily1_v3, .tvOS_GPUFamily2_v1, .macOS_GPUFamily1_v2,
   .macOS_GPUFamily2_v1]

/-- `LAYERED_RENDERING_SUPPORT` feature-tier table. -/
def LAYERED_RENDERING_SUPPORT : List MTLFeatureSet :=
  [.iOS_GPUFamily5_v1, .macOS_GPUFamily1_v1, .macOS_GPUFamily2_v1]

/-- `FUNCTION_SPECIALIZATION_SUPPORT` feature-tier table. -/
def FUNCTION_SPECIALIZATION_SUPPORT : List MTLFeatureSet :=
  [.iOS_GPUFamily1_v3, .iOS_GPUFamily2_v3, .iOS_GPUFamily3_v2, .iOS_GPUFamily4_v1,
   .iOS_GPUFamily5_v1, .tvOS_GPUFamily1_v2, .macOS_GPUFamily1_v2, .macOS_GPUFamily2_v1]

/-- `DEPTH_CLIP_MODE` feature-tier table. -/
def DEPTH_CLIP_MODE : List MTLFeatureSet :=
  [.iOS_GPUFamily4_v1, .iOS_GPUFamily5_v1, .tvOS_GPUFamily1_v3, .macOS_GPUFamily1_v1,
   .macOS_GPUFamily2_v1]

/-- The capability descriptor (`super::PrivateCapabilities`): every field
assigned by `PrivateCapabilities::new`. -/
structure PrivateCapabilities where
  family_check : Bool
  msl_version : MTLLanguageVersion
  exposed_queues : Nat
  read_write_texture_tier : MTLReadWriteTextureTier
  resource_heaps : Bool
  argument_buffers : Bool
  shared_textures : Bool
  mutable_comparison_samplers : Bool
  sampler_clamp_to_border : Bool
  sampler_lod_average : Bool
  base_instance : Bool
  base_vertex_instance_drawing : Bool
  dual_source_blending : Bool
  low_power : Bool
  headless : Bool
  layered_rendering : Bool
  function_specialization : Bool
  depth_clip_mode : Bool
  texture_cube_array : Bool
  format_depth24_stencil8 : Bool
  format_depth32_stencil8_filter : Bool
  format_depth32_stencil8_none : Bool
  format_min_srgb_channels : Nat
  format_b5 : Bool
  format_bc : Bool
  format_eac_etc : Bool
  format_astc : Bool
  format_any8_unorm_srgb_all : Bool
  format_any8_unorm_srgb_no_write : Bool
  format_any8_snorm_all : Bool
  format_r16_norm_all : Bool
  format_r32_all : Bool
  format_r32_no_write : Bool
  format_r32float_no_write_no_filter : Bool
  format_r32float_no_filter : Bool
  format_r32float_all : Bool
  format_rgba8_srgb_all : Bool
  format_rgba8_srgb_no_write : Bool
  format_rgb10a2_unorm_all : Bool
  format_rgb10a2_unorm_no_write : Bool
  format_rgb10a2_uint_color : Bool
  format_rgb10a2_uint_color_write : Bool
  format_rg11b10_all : Bool
  format_rg11b10_no_write : Bool
  format_rgb9e5_all : Bool
  format_rgb9e5_no_write : Bool
  format_rgb9e5_filter_only : Bool
  format_rg32_color : Bool
  format_rg32_color_write : Bool
  format_rg32float_all : Bool
  format_rg32float_color_blend : Bool
  format_rg32float_no_filter : Bool
  format_rgba32int_color : Bool
  format_rgba32int_color_write : Bool
  format_rgba32float_color : Bool
  format_rgba32float_color_write : Bool
  format_rgba32float_all : Bool
  format_depth16unorm : Bool
  format_depth32float_filter : Bool
  format_depth32float_none : Bool
  format_bgr10a2_all : Bool
  format_bgr10a2_no_write : Bool
  max_buffers_per_stage : Nat
  max_textures_per_stage : Nat
  max_samplers_per_stage : Nat
  buffer_alignment : Nat
  max_buffer_size : Nat
  max_texture_size : Nat
  max_texture_3d_size : Nat
  max_texture_layers : Nat
  max_fragment_input_components : Nat
  max_color_render_targets : Nat
  max_total_threadgroup_memory : Nat
  sample_count_mask : Nat
  supports_debug_markers : Bool
  supports_binary_archives : Bool
  supports_capture_manager : Bool
  can_set_maximum_drawables_count : Bool
  can_set_display_sync : Bool
  can_set_next_drawable_timeout : Bool
  supports_arrays_of_textures : Bool
  supports_arrays_of_textures_write : Bool
  supports_mutability : Bool

/-- `PrivateCapabilities::version_at_least`: lexicographic version threshold
test, `major > needed_major || (major == needed_major && minor >= needed_minor)`. -/
def version_at_least (major minor needed_major needed_minor : Nat) : Bool :=
  decide (needed_major < major) ||
    (decide (major = needed_major) && decide (needed_minor ≤ minor))

/-- `PrivateCapabilities::supports_any`: true iff the device supports at least
one feature set in the table. -/
def supports_any (raw : Device) (features_sets : List MTLFeatureSet) : Bool :=
  features_sets.any raw.supports_feature_set

/-- The capability probe `PrivateCapabilities::new`. The OS version pair that
the source reads from `NSProcessInfo` is passed here as the `major`/`minor`
parameters; every field is assigned exactly as in the source. -/
def PrivateCapabilities.new (device : Device) (major minor : Nat) : PrivateCapabilities :=
  let os_is_mac := device.supports_feature_set .macOS_GPUFamily1_v1
  let family_check :=
    cond os_is_mac (version_at_least major minor 10 15) (version_at_least major minor 13 0)
  let sample_count_mask : Nat :=
    ((1 ||| 4) ||| cond (device.supports_texture_sample_count 2) 2 0) |||
      cond (device.supports_texture_sample_count 8) 8 0
  { family_check := family_check
    msl_version :=
      cond os_is_mac
        (cond (version_at_least major minor 10 15) .V2_2
          (cond (version_at_least major minor 10 14) .V2_1
            (cond (version_at_least major minor 10 13) .V2_0
              (cond (version_at_least major minor 10 12) .V1_2
                (cond (version_at_least major minor 10 11) .V1_1 .V1_0)))))
        (cond (version_at_least major minor 13 0) .V2_2
          (cond (version_at_least major minor 12 0) .V2_1
            (cond (version_at_least major minor 11 0) .V2_0
              (cond (version_at_least major minor 10 0) .V1_2
                (cond (version_at_least major minor 9 0) .V1_1 .V1_0)))))
    exposed_queues := 1
    read_write_texture_tier :=
      cond os_is_mac
        (cond (version_at_least major minor 10 13) device.read_write_texture_support .TierNone)
        (cond (version_at_least major minor 11 0) device.read_write_texture_support .TierNone)
    resource_heaps := supports_any device RESOURCE_HEAP_SUPPORT
    argument_buffers := supports_any device ARGUMENT_BUFFER_SUPPORT
    shared_textures := !os_is_mac
    mutable_comparison_samplers := supports_any device MUTABLE_COMPARISON_SAMPLER_SUPPORT
    sampler_clamp_to_border := supports_any device SAMPLER_CLAMP_TO_BORDER_SUPPORT
    sampler_lod_average :=
      let need_version := cond os_is_mac (10, 13) (9, 0)
      version_at_least major minor need_version.1 need_version.2
    base_instance := supports_any device BASE_INSTANCE_SUPPORT
    base_vertex_instance_drawing := supports_any device BASE_VERTEX_INSTANCE_SUPPORT
    dual_source_blending := supports_any device DUAL_SOURCE_BLEND_SUPPORT
    low_power := !os_is_mac || device.is_low_power
    headless := os_is_mac && device.is_headless
    layered_rendering := supports_any device LAYERED_RENDERING_SUPPORT
    function_specialization := supports_any device FUNCTION_SPECIALIZATION_SUPPORT
    depth_clip_mode := supports_any device DEPTH_CLIP_MODE
    texture_cube_array := supports_any device TEXTURE_CUBE_ARRAY_SUPPORT
    format_depth24_stencil8 := os_is_mac && device.d24_s8_supported
    format_depth32_stencil8_filter := os_is_mac
    format_depth32_stencil8_none := !os_is_mac
    format_min_srgb_channels := cond os_is_mac 4 1
    format_b5 := !os_is_mac
    format_bc := os_is_mac
    format_eac_etc := !os_is_mac
    format_astc := supports_any device ASTC_PIXEL_FORMAT_FEATURES
    format_any8_unorm_srgb_all := supports_any device ANY8_UNORM_SRGB_ALL
    format_any8_unorm_srgb_no_write := !supports_any device ANY8_UNORM_SRGB_ALL && !os_is_mac
    format_any8_snorm_all := supports_any device ANY8_SNORM_RESOLVE
    format_r16_norm_all := os_is_mac
    format_r32_all :=
      !supports_any device [.iOS_GPUFamily1_v1, .iOS_GPUFamily2_v1]
    format_r32_no_write :=
      supports_any device [.iOS_GPUFamily1_v1, .iOS_GPUFamily2_v1]
    format_r32float_no_write_no_filter :=
      supports_any device [.iOS_GPUFamily1_v1, .iOS_GPUFamily2_v1] && !os_is_mac
    format_r32float_no_filter :=
      !supports_any device [.iOS_GPUFamily1_v1, .iOS_GPUFamily2_v1] && !os_is_mac
    format_r32float_all := os_is_mac
    format_rgba8_srgb_all := supports_any device RGBA8_SRGB
    format_rgba8_srgb_no_write := !supports_any device RGBA8_SRGB
    format_rgb10a2_unorm_all := supports_any device RGB10A2UNORM_ALL
    format_rgb10a2_unorm_no_write := !supports_any device RGB10A2UNORM_ALL
    format_rgb10a2_uint_color := !supports_any device RGB10A2UINT_COLOR_WRITE
    format_rgb10a2_uint_color_write := supports_any device RGB10A2UINT_COLOR_WRITE
    format_rg11b10_all := supports_any device RG11B10FLOAT_ALL
    format_rg11b10_no_write := !supports_any device RG11B10FLOAT_ALL
    format_rgb9e5_all := supports_any device RGB9E5FLOAT_ALL
    format_rgb9e5_no_write := !supports_any device RGB9E5FLOAT_ALL && !os_is_mac
    format_rgb9e5_filter_only := os_is_mac
    format_rg32_color :=
      supports_any device [.iOS_GPUFamily1_v1, .iOS_GPUFamily2_v1]
    format_rg32_color_write :=
      !supports_any device [.iOS_GPUFamily1_v1, .iOS_GPUFamily2_v1]
    format_rg32float_all := os_is_mac
    format_rg32float_color_blend :=
      supports_any device [.iOS_GPUFamily1_v1, .iOS_GPUFamily2_v1]
    format_rg32float_no_filter :=
      !os_is_mac && !supports_any device [.iOS_GPUFamily1_v1, .iOS_GPUFamily2_v1]
    format_rgba32int_color :=
      supports_any device [.iOS_GPUFamily1_v1, .iOS_GPUFamily2_v1]
    format_rgba32int_color_write :=
      !supports_any device [.iOS_GPUFamily1_v1, .iOS_GPUFamily2_v1]
    format_rgba32float_color :=
      supports_any device [.iOS_GPUFamily1_v1, .iOS_GPUFamily2_v1]
    format_rgba32float_color_write :=
      !supports_any device [.iOS_GPUFamily1_v1, .iOS_GPUFamily2_v1] && !os_is_mac
    format_rgba32float_all := os_is_mac
    format_depth16unorm := device.supports_feature_set .macOS_GPUFamily1_v2
    format_depth32float_filter := device.supports_feature_set .macOS_GPUFamily1_v1
    format_depth32float_none := !device.supports_feature_set .macOS_GPUFamily1_v1
    format_bgr10a2_all := supports_any device BGR10A2_ALL
    format_bgr10a2_no_write := !device.supports_feature_set .macOS_GPUFamily1_v3
    max_buffers_per_stage := 31
    max_textures_per_stage := cond os_is_mac 128 31
    max_samplers_per_stage := 16
    buffer_alignment := cond os_is_mac 256 64
    max_buffer_size :=
      cond (device.supports_feature_set .macOS_GPUFamily1_v2) (1 <<< 30) (1 <<< 28)
    max_texture_size :=
      cond (supports_any device
          [.iOS_GPUFamily3_v1, .tvOS_GPUFamily2_v1, .macOS_GPUFamily1_v1])
        16384
        (cond (supports_any device
            [.iOS_GPUFamily1_v2, .iOS_GPUFamily2_v2, .tvOS_GPUFamily1_v1])
          8192 4096)
    max_texture_3d_size := 2048
    max_texture_layers := 2048
    max_fragment_input_components := cond os_is_mac 128 60
    max_color_render_targets :=
      cond (supports_any device
          [.iOS_GPUFamily2_v1, .iOS_GPUFamily3_v1, .iOS_GPUFamily4_v1, .iOS_GPUFamily5_v1,
           .tvOS_GPUFamily1_v1, .tvOS_GPUFamily2_v1, .macOS_GPUFamily1_v1,
           .macOS_GPUFamily2_v1])
        8 4
    max_total_threadgroup_memory :=
      cond (supports_any device [.iOS_GPUFamily4_v2, .iOS_GPUFamily5_v1])
        (64 <<< 10)
        (cond (supports_any device
            [.iOS_GPUFamily4_v1, .macOS_GPUFamily1_v2, .macOS_GPUFamily2_v1])
          (32 <<< 10) (16 <<< 10))
    sample_count_mask := sample_count_mask
    supports_debug_markers :=
      supports_any device
        [.macOS_GPUFamily1_v2, .macOS_GPUFamily2_v1, .iOS_GPUFamily1_v3, .iOS_GPUFamily2_v3,
         .iOS_GPUFamily3_v2, .iOS_GPUFamily4_v1, .iOS_GPUFamily5_v1, .tvOS_GPUFamily1_v2,
         .tvOS_GPUFamily2_v1]
    supports_binary_archives :=
      family_check &&
        (device.supports_family .Apple3 || device.supports_family .Mac1)
    supports_capture_manager :=
      cond os_is_mac (version_at_least major minor 10 13) (version_at_least major minor 11 0)
    can_set_maximum_drawables_count := os_is_mac || version_at_least major minor 11 2
    can_set_display_sync := os_is_mac && version_at_least major minor 10 13
    can_set_next_drawable_timeout :=
      cond os_is_mac (version_at_least major minor 10 13) (version_at_least major minor 11 0)
    supports_arrays_of_textures :=
      supports_any device
        [.iOS_GPUFamily3_v2, .iOS_GPUFamily4_v1, .iOS_GPUFamily5_v1, .tvOS_GPUFamily2_v1,
         .macOS_GPUFamily1_v3, .macOS_GPUFamily2_v1]
    supports_arrays_of_textures_write :=
      family_check &&
        (device.supports_family .Apple6 || device.supports_family .Mac1 ||
          device.supports_family .Mac2 || device.supports_family .MacCatalyst1 ||
          device.supports_family .MacCatalyst2)
    supports_mutability :=
      cond os_is_mac (version_at_least major minor 10 13) (version_at_least major minor 11 0) }

/-- The format capability resolver (`Adapter::texture_format_capabilities`):
returns the usage-flag set of one portable format under one capability
descriptor, `COPY_SRC | COPY_DST | SAMPLED | extra` with `extra` resolved
per format. -/
def texture_format_capabilities (pc : PrivateCapabilities) (format : TextureFormat) : Tfc :=
  let rw :=
    match pc.read_write_texture_tier with
    | .TierNone => (Tfc.empty, Tfc.empty)
    | .Tier1 => (Tfc.STORAGE_READ_WRITE, Tfc.empty)
    | .Tier2 => (Tfc.STORAGE_READ_WRITE, Tfc.STORAGE_READ_WRITE)
  let read_write_tier1_if := rw.1
  let read_write_tier2_if := rw.2
  let extra :=
    match format with
    | .R8Unorm =>
        ((read_write_tier2_if.or Tfc.SAMPLED_LINEAR).or Tfc.STORAGE).or
          (Tfc.COLOR_ATTACHMENT.or Tfc.COLOR_ATTACHMENT_BLEND)
    | .R8Snorm =>
        ((Tfc.SAMPLED_LINEAR.or Tfc.STORAGE).or Tfc.COLOR_ATTACHMENT).or
          Tfc.COLOR_ATTACHMENT_BLEND
    | .R8Uint | .R8Sint | .R16Uint | .R16Sint =>
        (read_write_tier2_if.or Tfc.STORAGE).or Tfc.COLOR_ATTACHMENT
    | .R16Float =>
        ((read_write_tier2_if.or Tfc.STORAGE).or Tfc.COLOR_ATTACHMENT).or
          Tfc.COLOR_ATTACHMENT_BLEND
    | .Rg8Unorm | .Rg8Snorm =>
        ((Tfc.SAMPLED_LINEAR.or Tfc.STORAGE).or Tfc.COLOR_ATTACHMENT).or
          Tfc.COLOR_ATTACHMENT_BLEND
    | .Rg8Uint | .Rg8Sint => Tfc.COLOR_ATTACHMENT
    | .R32Uint | .R32Sint =>
        cond pc.format_r32_all
          ((read_write_tier1_if.or Tfc.STORAGE).or Tfc.COLOR_ATTACHMENT)
          Tfc.COLOR_ATTACHMENT
    | .R32Float =>
        let flags := Tfc.COLOR_ATTACHMENT.or Tfc.COLOR_ATTACHMENT_BLEND
        cond pc.format_r32float_all
          (flags.or ((read_write_tier1_if.or Tfc.STORAGE).or Tfc.SAMPLED_LINEAR))
          (cond pc.format_r32float_no_filter (flags.or Tfc.SAMPLED_LINEAR) flags)
    | .Rg16Uint | .Rg16Sint =>
        (read_write_tier2_if.or Tfc.STORAGE).or Tfc.COLOR_ATTACHMENT
    | .Rg16Float =>
        (((read_write_tier2_if.or Tfc.SAMPLED_LINEAR).or Tfc.STORAGE).or
          Tfc.COLOR_ATTACHMENT).or Tfc.COLOR_ATTACHMENT_BLEND
    | .Rgba8Unorm =>
        (((read_write_tier2_if.or Tfc.SAMPLED_LINEAR).or Tfc.STORAGE).or
          Tfc.COLOR_ATTACHMENT).or Tfc.COLOR_ATTACHMENT_BLEND
    | .Rgba8UnormSrgb | .Bgra8UnormSrgb =>
        let flags := (Tfc.SAMPLED_LINEAR.or Tfc.COLOR_ATTACHMENT).or Tfc.COLOR_ATTACHMENT_BLEND
        flags.setStorage pc.format_rgba8_srgb_all
    | .Rgba8Snorm | .Bgra8Unorm =>
        ((Tfc.SAMPLED_LINEAR.or Tfc.STORAGE).or Tfc.COLOR_ATTACHMENT).or
          Tfc.COLOR_ATTACHMENT_BLEND
    | .Rgba8Uint | .Rgba8Sint =>
        (read_write_tier2_if.or Tfc.STORAGE).or Tfc.COLOR_ATTACHMENT
    | .Rgb10a2Unorm =>
        let flags := (Tfc.SAMPLED_LINEAR.or Tfc.COLOR_ATTACHMENT).or Tfc.COLOR_ATTACHMENT_BLEND
        flags.setStorage pc.format_rgb10a2_unorm_all
    | .Rg11b10Float =>
        let flags := (Tfc.SAMPLED_LINEAR.or Tfc.COLOR_ATTACHMENT).or Tfc.COLOR_ATTACHMENT_BLEND
        flags.setStorage pc.format_rg11b10_all
    | .Rg32Uint | .Rg32Sint => Tfc.COLOR_ATTACHMENT.or Tfc.STORAGE
    | .Rg32Float =>
        let flags := Tfc.COLOR_ATTACHMENT.or Tfc.COLOR_ATTACHMENT_BLEND
        cond pc.format_rg32float_all
          (flags.or (Tfc.STORAGE.or Tfc.SAMPLED_LINEAR))
          (cond pc.format_rg32float_color_blend (flags.or Tfc.SAMPLED_LINEAR) flags)
    | .Rgba16Uint | .Rgba16Sint =>
        (read_write_tier2_if.or Tfc.STORAGE).or Tfc.COLOR_ATTACHMENT
    | .Rgba16Float =>
        (((read_write_tier2_if.or Tfc.SAMPLED_LINEAR).or Tfc.STORAGE).or
          Tfc.COLOR_ATTACHMENT).or Tfc.COLOR_ATTACHMENT_BLEND
    | .Rgba32Uint | .Rgba32Sint =>
        cond pc.format_rgba32int_color_write
          ((read_write_tier2_if.or Tfc.COLOR_ATTACHMENT).or Tfc.STORAGE)
          Tfc.COLOR_ATTACHMENT
    | .Rgba32Float =>
        cond pc.format_rgba32float_all
          ((((read_write_tier2_if.or Tfc.SAMPLED_LINEAR).or Tfc.STORAGE).or
            Tfc.COLOR_ATTACHMENT).or Tfc.COLOR_ATTACHMENT_BLEND)
          (cond pc.format_rgba32float_color_write
            ((read_write_tier2_if.or Tfc.COLOR_ATTACHMENT).or Tfc.STORAGE)
            Tfc.COLOR_ATTACHMENT)
    | .Depth32Float =>
        cond pc.format_depth32float_filter
          (Tfc.DEPTH_STENCIL_ATTACHMENT.or Tfc.SAMPLED_LINEAR)
          Tfc.DEPTH_STENCIL_ATTACHMENT
    | .Depth24Plus | .Depth24PlusStencil8 =>
        Tfc.DEPTH_STENCIL_ATTACHMENT.or Tfc.SAMPLED_LINEAR
    | .Rgb9e5Ufloat => Tfc.SAMPLED_LINEAR
    | .Bc1RgbaUnorm | .Bc1RgbaUnormSrgb | .Bc2RgbaUnorm | .Bc2RgbaUnormSrgb
    | .Bc3RgbaUnorm | .Bc3RgbaUnormSrgb | .Bc4RUnorm | .Bc4RSnorm
    | .Bc5RgUnorm | .Bc5RgSnorm | .Bc6hRgbUfloat | .Bc6hRgbSfloat
    | .Bc7RgbaUnorm | .Bc7RgbaUnormSrgb =>
        cond pc.format_bc Tfc.SAMPLED_LINEAR Tfc.empty
    | .Etc2RgbUnorm | .Etc2RgbUnormSrgb | .Etc2RgbA1Unorm | .Etc2RgbA1UnormSrgb
    | .EacRUnorm | .EacRSnorm | .EacRgUnorm | .EacRgSnorm =>
        cond pc.format_eac_etc Tfc.SAMPLED_LINEAR Tfc.empty
    | .Astc4x4RgbaUnorm | .Astc4x4RgbaUnormSrgb | .Astc5x4RgbaUnorm | .Astc5x4RgbaUnormSrgb
    | .Astc5x5RgbaUnorm | .Astc5x5RgbaUnormSrgb | .Astc6x5RgbaUnorm | .Astc6x5RgbaUnormSrgb
    | .Astc6x6RgbaUnorm | .Astc6x6RgbaUnormSrgb | .Astc8x5RgbaUnorm | .Astc8x5RgbaUnormSrgb
    | .Astc8x6RgbaUnorm | .Astc8x6RgbaUnormSrgb | .Astc10x5RgbaUnorm | .Astc10x5RgbaUnormSrgb
    | .Astc10x6RgbaUnorm | .Astc10x6RgbaUnormSrgb | .Astc8x8RgbaUnorm | .Astc8x8RgbaUnormSrgb
    | .Astc10x8RgbaUnorm | .Astc10x8RgbaUnormSrgb | .Astc10x10RgbaUnorm
    | .Astc10x10RgbaUnormSrgb | .Astc12x10RgbaUnorm | .Astc12x10RgbaUnormSrgb
    | .Astc12x12RgbaUnorm | .Astc12x12RgbaUnormSrgb =>
        cond pc.format_astc Tfc.SAMPLED_LINEAR Tfc.empty
  ((Tfc.COPY_SRC.or Tfc.COPY_DST).or Tfc.SAMPLED).or extra

/-- The body of `PrivateCapabilities::map_format`; the only descriptor field
the source match reads is `self.format_depth24_stencil8`, passed here as the
first argument. -/
def map_format_core (format_depth24_stencil8 : Bool) (format : TextureFormat) :
    MTLPixelFormat :=
  match format with
  | .R8Unorm => .R8Unorm
  | .R8Snorm => .R8Snorm
  | .R8Uint => .R8Uint
  | .R8Sint => .R8Sint
  | .R16Uint => .R16Uint
  | .R16Sint => .R16Sint
  | .R16Float => .R16Float
  | .Rg8Unorm => .RG8Unorm
  | .Rg8Snorm => .RG8Snorm
  | .Rg8Uint => .RG8Uint
  | .Rg8Sint => .RG8Sint
  | .R32Uint => .R32Uint
  | .R32Sint => .R32Sint
  | .R32Float => .R32Float
  | .Rg16Uint => .RG16Uint
  | .Rg16Sint => .RG16Sint
  | .Rg16Float => .RG16Float
  | .Rgba8Unorm => .RGBA8Unorm
  | .Rgba8UnormSrgb => .RGBA8Unorm_sRGB
  | .Bgra8UnormSrgb => .BGRA8Unorm_sRGB
  | .Rgba8Snorm => .RGBA8Snorm
  | .Bgra8Unorm => .BGRA8Unorm
  | .Rgba8Uint => .RGBA8Uint
  | .Rgba8Sint => .RGBA8Sint
  | .Rgb10a2Unorm => .RGB10A2Unorm
  | .Rg11b10Float => .RG11B10Float
  | .Rg32Uint => .RG32Uint
  | .Rg32Sint => .RG32Sint
  | .Rg32Float => .RG32Float
  | .Rgba16Uint => .RGBA16Uint
  | .Rgba16Sint => .RGBA16Sint
  | .Rgba16Float => .RGBA16Float
  | .Rgba32Uint => .RGBA32Uint
  | .Rgba32Sint => .RGBA32Sint
  | .Rgba32Float => .RGBA32Float
  | .Depth32Float => .Depth32Float
  | .Depth24Plus =>
      cond format_depth24_stencil8 .Depth24Unorm_Stencil8 .Depth32Float
  | .Depth24PlusStencil8 =>
      cond format_depth24_stencil8 .Depth24Unorm_Stencil8 .Depth32Float_Stencil8
  | .Rgb9e5Ufloat => .RGB9E5Float
  | .Bc1RgbaUnorm => .BC1_RGBA
  | .Bc1RgbaUnormSrgb => .BC1_RGBA_sRGB
  | .Bc2RgbaUnorm => .BC2_RGBA
  | .Bc2RgbaUnormSrgb => .BC2_RGBA_sRGB
  | .Bc3RgbaUnorm => .BC3_RGBA
  | .Bc3RgbaUnormSrgb => .BC3_RGBA_sRGB
  | .Bc4RUnorm => .BC4_RUnorm
  | .Bc4RSnorm => .BC4_RSnorm
  | .Bc5RgUnorm => .BC5_RGUnorm
  | .Bc5RgSnorm => .BC5_RGSnorm
  | .Bc6hRgbSfloat => .BC6H_RGBFloat
  | .Bc6hRgbUfloat => .BC6H_RGBUfloat
  | .Bc7RgbaUnorm => .BC7_RGBAUnorm
  | .Bc7RgbaUnormSrgb => .BC7_RGBAUnorm_sRGB
  | .Etc2RgbUnorm => .ETC2_RGB8
  | .Etc2RgbUnormSrgb => .ETC2_RGB8_sRGB
  | .Etc2RgbA1Unorm => .ETC2_RGB8A1
  | .Etc2RgbA1UnormSrgb => .ETC2_RGB8A1_sRGB
  | .EacRUnorm => .EAC_R11Unorm
  | .EacRSnorm => .EAC_R11Snorm
  | .EacRgUnorm => .EAC_RG11Unorm
  | .EacRgSnorm => .EAC_RG11Snorm
  | .Astc4x4RgbaUnorm => .ASTC_4x4_LDR
  | .Astc4x4RgbaUnormSrgb => .ASTC_4x4_sRGB
  | .Astc5x4RgbaUnorm => .ASTC_5x4_LDR
  | .Astc5x4RgbaUnormSrgb => .ASTC_5x4_sRGB
  | .Astc5x5RgbaUnorm => .ASTC_5x5_LDR
  | .Astc5x5RgbaUnormSrgb => .ASTC_5x5_sRGB
  | .Astc6x5RgbaUnorm => .ASTC_6x5_LDR
  | .Astc6x5RgbaUnormSrgb => .ASTC_6x5_sRGB
  | .Astc6x6RgbaUnorm => .ASTC_6x6_LDR
  | .Astc6x6RgbaUnormSrgb => .ASTC_6x6_sRGB
  | .Astc8x5RgbaUnorm => .ASTC_8x5_LDR
  | .Astc8x5RgbaUnormSrgb => .ASTC_8x5_sRGB
  | .Astc8x6RgbaUnorm => .ASTC_8x6_LDR
  | .Astc8x6RgbaUnormSrgb => .ASTC_8x6_sRGB
  | .Astc10x5RgbaUnorm => .ASTC_8x8_LDR
  | .Astc10x5RgbaUnormSrgb => .ASTC_8x8_sRGB
  | .Astc10x6RgbaUnorm => .ASTC_10x5_LDR
  | .Astc10x6RgbaUnormSrgb => .ASTC_10x5_sRGB
  | .Astc8x8RgbaUnorm => .ASTC_10x6_LDR
  | .Astc8x8RgbaUnormSrgb => .ASTC_10x6_sRGB
  | .Astc10x8RgbaUnorm => .ASTC_10x8_LDR
  | .Astc10x8RgbaUnormSrgb => .ASTC_10x8_sRGB
  | .Astc10x10RgbaUnorm => .ASTC_10x10_LDR
  | .Astc10x10RgbaUnormSrgb => .ASTC_10x10_sRGB
  | .Astc12x10RgbaUnorm => .ASTC_12x10_LDR
  | .Astc12x10RgbaUnormSrgb => .ASTC_12x10_sRGB
  | .Astc12x12RgbaUnorm => .ASTC_12x12_LDR
  | .Astc12x12RgbaUnormSrgb => .ASTC_12x12_sRGB

/-- The format mapping table `PrivateCapabilities::map_format`. -/
def PrivateCapabilities.map_format (pc : PrivateCapabilities) (format : TextureFormat) :
    MTLPixelFormat :=
  map_format_core pc.format_depth24_stencil8 format

/-- The portable feature bitset (`wgt::Features`), restricted to the bits that
`PrivateCapabilities::features` assigns. -/
structure Features where
  depth_clamping : Bool
  texture_compression_bc : Bool
  mappable_primary_buffers : Bool
  vertex_writable_storage : Bool
  texture_adapter_specific_format_features : Bool
  polygon_mode_line : Bool
  clear_commands : Bool
  texture_binding_array : Bool
  sampled_texture_and_storage_buffer_array_non_uniform_indexing : Bool
  uniform_buffer_and_storage_texture_array_non_uniform_indexing : Bool
  storage_resource_binding_array : Bool
  address_mode_clamp_to_border : Bool
deriving DecidableEq, Repr

/-- The feature-set projection `PrivateCapabilities::features`: the seven base
bits are set unconditionally; the three binding-array bits are set iff
`msl_version >= V2_0 && supports_arrays_of_textures`; the storage binding-array
bit is inserted iff `msl_version >= V2_2 && supports_arrays_of_textures &&
supports_arrays_of_textures_write`; the clamp-to-border bit mirrors
`sampler_clamp_to_border`. -/
def PrivateCapabilities.features (pc : PrivateCapabilities) : Features :=
  let binding_arrays :=
    pc.msl_version.vge .V2_0 && pc.supports_arrays_of_textures
  let storage_arrays :=
    pc.msl_version.vge .V2_2 && pc.supports_arrays_of_textures &&
      pc.supports_arrays_of_textures_write
  { depth_clamping := true
    texture_compression_bc := true
    mappable_primary_buffers := true
    vertex_writable_storage := true
    texture_adapter_specific_format_features := true
    polygon_mode_line := true
    clear_commands := true
    texture_binding_array := binding_arrays
    sampled_texture_and_storage_buffer_array_non_uniform_indexing := binding_arrays
    uniform_buffer_and_storage_texture_array_non_uniform_indexing := binding_arrays
    storage_resource_binding_array := storage_arrays
    address_mode_clamp_to_border := pc.sampler_clamp_to_border }

/-- A device handle answering `false`/`TierNone` to every query: a
mobile-class device supporting no feature set. -/
def devNone : Device :=
  ⟨fun _ => false, fun _ => false, .TierNone, false, false, false, fun _ => false⟩

/-- A device handle answering `true`/`Tier2` to every query (an adversarial
oracle that claims membership in every feature set and family). -/
def devAll : Device :=
  ⟨fun _ => true, fun _ => true, .Tier2, true, true, true, fun _ => true⟩

/-- Membership in the macOS feature sets referenced by the source. -/
def isMacFeatureSet : MTLFeatureSet → Bool
  | .macOS_GPUFamily1_v1 => true
  | .macOS_GPUFamily1_v2 => true
  | .macOS_GPUFamily1_v3 => true
  | .macOS_GPUFamily1_v4 => true
  | .macOS_GPUFamily2_v1 => true
  | _ => false

/-- Membership in the Mac GPU families referenced by the source. -/
def isMacFamily : MTLGPUFamily → Bool
  | .Mac1 => true
  | .Mac2 => true
  | _ => false

/-- A desktop-class device handle: supports exactly the macOS feature sets and
Mac GPU families, with read-write texture tier 2 and combined depth24-stencil8
support. -/
def devMac : Device :=
  ⟨isMacFeatureSet, isMacFamily, .Tier2, true, false, false, fun _ => true⟩

/-- C1 (counterexample): for the descriptor probed from a device supporting no
feature set (so `format_depth24_stencil8 = false`), mapping
`Depth24PlusStencil8` does NOT yield the stencil-free 32-bit float depth
format `Depth32Float`; it yields `Depth32Float_Stencil8`, which has a stencil
plane. -/
theorem map_format_d24s8_fallback_cex :
    (PrivateCapabilities.new devNone 13 0).format_depth24_stencil8 = false ∧
    (PrivateCapabilities.new devNone 13 0).map_format .Depth24PlusStencil8 ≠
      MTLPixelFormat.Depth32Float ∧
    (PrivateCapabilities.new devNone 13 0).map_format .Depth24PlusStencil8 =
      MTLPixelFormat.Depth32Float_Stencil8 := by
  decide

/-- C1 (amended): for every descriptor in which `format_depth24_stencil8` is
false, `map_format` applied to `Depth24PlusStencil8` returns the 32-bit-float
depth, 8-bit-stencil native format `Depth32Float_Stencil8` — a distinct format
from the combined 24-bit-depth/8-bit-stencil native format
`Depth24Unorm_Stencil8`. -/
theorem map_format_d24s8_fallback (pc : PrivateCapabilities)
    (h : pc.format_depth24_stencil8 = false) :
    pc.map_format .Depth24PlusStencil8 = MTLPixelFormat.Depth32Float_Stencil8 ∧
    MTLPixelFormat.Depth32Float_Stencil8 ≠ MTLPixelFormat.Depth24Unorm_Stencil8 := by
  refine ⟨?_, by decide⟩
  simp [PrivateCapabilities.map_format, map_format_core, h]

/-- C1 (witness): the amended statement evaluated at the descriptor probed
from `devNone`, whose `format_depth24_stencil8` is false. -/
theorem map_format_d24s8_fallback_w :
    (PrivateCapabilities.new devNone 13 0).format_depth24_stencil8 = false ∧
    (PrivateCapabilities.new devNone 13 0).map_format .Depth24PlusStencil8 =
      MTLPixelFormat.Depth32Float_Stencil8 :=
  ⟨by decide, (map_format_d24s8_fallback _ (by decide)).1⟩

/-- C3: for every portable pixel format and every capability descriptor, the
set returned by `texture_format_capabilities` contains the copy-source,
copy-destination, and sampled flags. -/
theorem tfc_base_flags (pc : PrivateCapabilities) (f : TextureFormat) :
    (texture_format_capabilities pc f).copy_src = true ∧
    (texture_format_capabilities pc f).copy_dst = true ∧
    (texture_format_capabilities pc f).sampled = true :=
  ⟨rfl, rfl, rfl⟩

/-- C4: for every capability descriptor with read-write texture tier 2 and
`format_r32_all` true, `texture_format_capabilities` at `R32Uint` is exactly
{COPY_SRC, COPY_DST, SAMPLED, STORAGE_READ_WRITE, STORAGE, COLOR_ATTACHMENT}. -/
theorem tfc_r32uint_tier2_exact (pc : PrivateCapabilities)
    (h1 : pc.read_write_texture_tier = .Tier2) (h2 : pc.format_r32_all = true) :
    texture_format_capabilities pc .R32Uint =
      ⟨true, true, true, false, true, true, true, false, false⟩ := by
  simp [texture_format_capabilities, h1, h2, Tfc.or, Tfc.COPY_SRC, Tfc.COPY_DST,
    Tfc.SAMPLED, Tfc.STORAGE, Tfc.COLOR_ATTACHMENT, Tfc.STORAGE_READ_WRITE]

/-- C4 (witness): the statement evaluated at the descriptor probed from
`devMac` on OS 10.15, which has tier 2 and `format_r32_all` true. -/
theorem tfc_r32uint_tier2_exact_w :
    (PrivateCapabilities.new devMac 10 15).read_write_texture_tier = .Tier2 ∧
    (PrivateCapabilities.new devMac 10 15).format_r32_all = true ∧
    texture_format_capabilities (PrivateCapabilities.new devMac 10 15) .R32Uint =
      ⟨true, true, true, false, true, true, true, false, false⟩ :=
  ⟨by decide, by decide, tfc_r32uint_tier2_exact _ (by decide) (by decide)⟩

/-- C5: `version_at_least` is reflexive, and monotonic in the threshold with
respect to the lexicographic order on (major, minor). -/
theorem version_at_least_refl_mono :
    (∀ mj mn, version_at_least mj mn mj mn = true) ∧
    (∀ a b x y x' y', version_at_least a b x y = true →
      x' < x ∨ (x' = x ∧ y' ≤ y) → version_at_least a b x' y' = true) := by
  constructor
  · intro mj mn
    simp [version_at_least]
  · intro a b x y x' y' h hle
    simp only [version_at_least, Bool.or_eq_true, Bool.and_eq_true,
      decide_eq_true_eq] at h ⊢
    omega

/-- C5 (witness): reflexivity at (10, 15), and monotonicity from threshold
(10, 15) down to the lexicographically smaller threshold (10, 13). -/
theorem version_at_least_refl_mono_w :
    version_at_least 10 15 10 15 = true ∧ version_at_least 10 15 10 13 = true :=
  ⟨version_at_least_refl_mono.1 10 15,
   version_at_least_refl_mono.2 10 15 10 15 10 13 (version_at_least_refl_mono.1 10 15)
     (Or.inr ⟨rfl, by decide⟩)⟩

/-- C6: for a mobile-class device (one not supporting `macOS_GPUFamily1_v1`,
so `os_is_mac` is false), the probed `family_check` field is true at OS
version (13, 0) and false at OS version (12, 9). -/
theorem family_check_mobile_13 (dev : Device)
    (h : dev.supports_feature_set .macOS_GPUFamily1_v1 = false) :
    (PrivateCapabilities.new dev 13 0).family_check = true ∧
    (PrivateCapabilities.new dev 12 9).family_check = false := by
  constructor <;> simp [PrivateCapabilities.new, h, version_at_least]

/-- C6 (witness): the statement evaluated at the mobile-class device
`devNone`. -/
theorem family_check_mobile_13_w :
    (PrivateCapabilities.new devNone 13 0).family_check = true ∧
    (PrivateCapabilities.new devNone 12 9).family_check = false :=
  family_check_mobile_13 devNone rfl

/-- With combined depth24-stencil8 unsupported, the mapping-table body is
injective except for the collapse of `Depth24Plus` and `Depth32Float` onto
`Depth32Float`. -/
theorem map_format_core_inj_false : ∀ f g : TextureFormat, f ≠ g →
    map_format_core false f = map_format_core false g →
    (f = .Depth24Plus ∧ g = .Depth32Float) ∨ (f = .Depth32Float ∧ g = .Depth24Plus) := by
  decide

/-- With combined depth24-stencil8 supported, the mapping-table body is
injective except for the collapse of `Depth24Plus` and `Depth24PlusStencil8`
onto `Depth24Unorm_Stencil8`. -/
theorem map_format_core_inj_true : ∀ f g : TextureFormat, f ≠ g →
    map_format_core true f = map_format_core true g →
    (f = .Depth24Plus ∧ g = .Depth24PlusStencil8) ∨
      (f = .Depth24PlusStencil8 ∧ g = .Depth24Plus) := by
  decide

/-- C2 (counterexample): for the descriptor probed from `devAll` (which
reports combined depth-stencil SUPPORTED, `format_depth24_stencil8 = true`),
the two distinct portable formats `Depth24Plus` and `Depth24PlusStencil8`
collapse to the same native format — so a many-to-one collapse occurs also
when the combination is supported, not only when it is unsupported. -/
theorem map_format_collapse_cex :
    (PrivateCapabilities.new devAll 13 0).format_depth24_stencil8 = true ∧
    TextureFormat.Depth24Plus ≠ TextureFormat.Depth24PlusStencil8 ∧
    (PrivateCapabilities.new devAll 13 0).map_format .Depth24Plus =
      (PrivateCapabilities.new devAll 13 0).map_format .Depth24PlusStencil8 := by
  decide

/-- C2 (amended): for every descriptor, `map_format` is total (every portable
format yields exactly one native format), and distinct portable formats map to
distinct native formats except for exactly one depth-format collapse per
descriptor: when `format_depth24_stencil8` is true, `Depth24Plus` and
`Depth24PlusStencil8` share a native format; when it is false, `Depth24Plus`
and `Depth32Float` share a native format. -/
theorem map_format_total_injective_except_depth :
    (∀ (pc : PrivateCapabilities) (f : TextureFormat), ∃! n, pc.map_format f = n) ∧
    (∀ (pc : PrivateCapabilities) (f g : TextureFormat), f ≠ g →
      pc.map_format f = pc.map_format g →
      (pc.format_depth24_stencil8 = true ∧
        ((f = .Depth24Plus ∧ g = .Depth24PlusStencil8) ∨
         (f = .Depth24PlusStencil8 ∧ g = .Depth24Plus))) ∨
      (pc.format_depth24_stencil8 = false ∧
        ((f = .Depth24Plus ∧ g = .Depth32Float) ∨
         (f = .Depth32Float ∧ g = .Depth24Plus)))) := by
  constructor
  · intro pc f
    exact ⟨pc.map_format f, rfl, fun y hy => hy.symm⟩
  · intro pc f g hne heq
    unfold PrivateCapabilities.map_format at heq
    cases hb : pc.format_depth24_stencil8
    · rw [hb] at heq
      exact Or.inr ⟨rfl, map_format_core_inj_false f g hne heq⟩
    · rw [hb] at heq
      exact Or.inl ⟨rfl, map_format_core_inj_true f g hne heq⟩

/-- C2 (witness): the injectivity-exception statement applied at the
descriptor probed from `devNone` (combined depth-stencil unsupported) to the
concrete distinct pair `Depth24Plus`, `Depth32Float`, which does map to one
native format. -/
theorem map_format_total_injective_except_depth_w :
    ((PrivateCapabilities.new devNone 13 0).format_depth24_stencil8 = true ∧
      ((TextureFormat.Depth24Plus = TextureFormat.Depth24Plus ∧
        TextureFormat.Depth32Float = TextureFormat.Depth24PlusStencil8) ∨
       (TextureFormat.Depth24Plus = TextureFormat.Depth24PlusStencil8 ∧
        TextureFormat.Depth32Float = TextureFormat.Depth24Plus))) ∨
    ((PrivateCapabilities.new devNone 13 0).format_depth24_stencil8 = false ∧
      ((TextureFormat.Depth24Plus = TextureFormat.Depth24Plus ∧
        TextureFormat.Depth32Float = TextureFormat.Depth32Float) ∨
       (TextureFormat.Depth24Plus = TextureFormat.Depth32Float ∧
        TextureFormat.Depth32Float = TextureFormat.Depth24Plus))) :=
  map_format_total_injective_except_depth.2 (PrivateCapabilities.new devNone 13 0)
    .Depth24Plus .Depth32Float (by decide) (by decide)

/-- Classifier for the block-compressed (BC) portable formats. -/
def isBc : TextureFormat → Bool
  | .Bc1RgbaUnorm | .Bc1RgbaUnormSrgb | .Bc2RgbaUnorm | .Bc2RgbaUnormSrgb
  | .Bc3RgbaUnorm | .Bc3RgbaUnormSrgb | .Bc4RUnorm | .Bc4RSnorm
  | .Bc5RgUnorm | .Bc5RgSnorm | .Bc6hRgbUfloat | .Bc6hRgbSfloat
  | .Bc7RgbaUnorm | .Bc7RgbaUnormSrgb => true
  | _ => false

/-- Classifier for the ETC2/EAC portable formats. -/
def isEtcEac : TextureFormat → Bool
  | .Etc2RgbUnorm | .Etc2RgbUnormSrgb | .Etc2RgbA1Unorm | .Etc2RgbA1UnormSrgb
  | .EacRUnorm | .EacRSnorm | .EacRgUnorm | .EacRgSnorm => true
  | _ => false

/-- Classifier for the ASTC portable formats. -/
def isAstc : TextureFormat → Bool
  | .Astc4x4RgbaUnorm | .Astc4x4RgbaUnormSrgb | .Astc5x4RgbaUnorm | .Astc5x4RgbaUnormSrgb
  | .Astc5x5RgbaUnorm | .Astc5x5RgbaUnormSrgb | .Astc6x5RgbaUnorm | .Astc6x5RgbaUnormSrgb
  | .Astc6x6RgbaUnorm | .Astc6x6RgbaUnormSrgb | .Astc8x5RgbaUnorm | .Astc8x5RgbaUnormSrgb
  | .Astc8x6RgbaUnorm | .Astc8x6RgbaUnormSrgb | .Astc10x5RgbaUnorm | .Astc10x5RgbaUnormSrgb
  | .Astc10x6RgbaUnorm | .Astc10x6RgbaUnormSrgb | .Astc8x8RgbaUnorm | .Astc8x8RgbaUnormSrgb
  | .Astc10x8RgbaUnorm | .Astc10x8RgbaUnormSrgb | .Astc10x10RgbaUnorm
  | .Astc10x10RgbaUnormSrgb | .Astc12x10RgbaUnorm | .Astc12x10RgbaUnormSrgb
  | .Astc12x12RgbaUnorm | .Astc12x12RgbaUnormSrgb => true
  | _ => false

/-- C7: for every compressed portable format and every descriptor, the
resolved capability set is exactly the base flags {COPY_SRC, COPY_DST,
SAMPLED} plus SAMPLED_LINEAR iff the corresponding family-support descriptor
field (format_bc, format_eac_etc, format_astc respectively) is true — in
particular compressed formats never receive storage, color-attachment, blend,
or depth/stencil-attachment flags. -/
theorem tfc_compressed_exact (pc : PrivateCapabilities) (f : TextureFormat) :
    (isBc f = true → texture_format_capabilities pc f =
      cond pc.format_bc
        ⟨true, true, true, true, false, false, false, false, false⟩
        ⟨true, true, true, false, false, false, false, false, false⟩) ∧
    (isEtcEac f = true → texture_format_capabilities pc f =
      cond pc.format_eac_etc
        ⟨true, true, true, true, false, false, false, false, false⟩
        ⟨true, true, true, false, false, false, false, false, false⟩) ∧
    (isAstc f = true → texture_format_capabilities pc f =
      cond pc.format_astc
        ⟨true, true, true, true, false, false, false, false, false⟩
        ⟨true, true, true, false, false, false, false, false, false⟩) := by
  refine ⟨?_, ?_, ?_⟩ <;> intro h
  · cases f <;> simp only [isBc, Bool.false_eq_true] at h <;>
      cases hb : pc.format_bc <;>
      simp [texture_format_capabilities, hb, Tfc.or, Tfc.empty, Tfc.COPY_SRC,
        Tfc.COPY_DST, Tfc.SAMPLED, Tfc.SAMPLED_LINEAR]
  · cases f <;> simp only [isEtcEac, Bool.false_eq_true] at h <;>
      cases hb : pc.format_eac_etc <;>
      simp [texture_format_capabilities, hb, Tfc.or, Tfc.empty, Tfc.COPY_SRC,
        Tfc.COPY_DST, Tfc.SAMPLED, Tfc.SAMPLED_LINEAR]
  · cases f <;> simp only [isAstc, Bool.false_eq_true] at h <;>
      cases hb : pc.format_astc <;>
      simp [texture_format_capabilities, hb, Tfc.or, Tfc.empty, Tfc.COPY_SRC,
        Tfc.COPY_DST, Tfc.SAMPLED, Tfc.SAMPLED_LINEAR]

/-- C7 (witness): the statement evaluated at the descriptor probed from
`devMac` for one format of each compressed family. -/
theorem tfc_compressed_exact_w :
    isBc .Bc1RgbaUnorm = true ∧ isEtcEac .EacRUnorm = true ∧
    isAstc .Astc4x4RgbaUnorm = true ∧
    texture_format_capabilities (PrivateCapabilities.new devMac 10 15) .Bc1RgbaUnorm =
      cond (PrivateCapabilities.new devMac 10 15).format_bc
        ⟨true, true, true, true, false, false, false, false, false⟩
        ⟨true, true, true, false, false, false, false, false, false⟩ ∧
    texture_format_capabilities (PrivateCapabilities.new devMac 10 15) .EacRUnorm =
      cond (PrivateCapabilities.new devMac 10 15).format_eac_etc
        ⟨true, true, true, true, false, false, false, false, false⟩
        ⟨true, true, true, false, false, false, false, false, false⟩ ∧
    texture_format_capabilities (PrivateCapabilities.new devMac 10 15) .Astc4x4RgbaUnorm =
      cond (PrivateCapabilities.new devMac 10 15).format_astc
        ⟨true, true, true, true, false, false, false, false, false⟩
        ⟨true, true, true, false, false, false, false, false, false⟩ :=
  ⟨by decide, by decide, by decide,
   (tfc_compressed_exact _ _).1 (by decide),
   (tfc_compressed_exact _ _).2.1 (by decide),
   (tfc_compressed_exact _ _).2.2 (by decide)⟩

/-- C8: the binding-array features are advertised iff the shading-language
version is at least 2.0 and arrays of textures are supported; the storage
binding-array feature is advertised iff the version is at least 2.2 and both
arrays of textures and write-capable arrays of textures are supported; hence
any feature set containing the storage binding-array feature also contains the
texture binding-array feature (a strict two-tier ladder). -/
theorem features_binding_array_ladder (pc : PrivateCapabilities) :
    ((pc.features.texture_binding_array = true) ↔
      (MTLLanguageVersion.V2_0.code ≤ pc.msl_version.code ∧
       pc.supports_arrays_of_textures = true)) ∧
    (pc.features.sampled_texture_and_storage_buffer_array_non_uniform_indexing =
      pc.features.texture_binding_array) ∧
    (pc.features.uniform_buffer_and_storage_texture_array_non_uniform_indexing =
      pc.features.texture_binding_array) ∧
    ((pc.features.storage_resource_binding_array = true) ↔
      (MTLLanguageVersion.V2_2.code ≤ pc.msl_version.code ∧
       pc.supports_arrays_of_textures = true ∧
       pc.supports_arrays_of_textures_write = true)) ∧
    (pc.features.storage_resource_binding_array = true →
      pc.features.texture_binding_array = true) := by
  have hv : ∀ a b : MTLLanguageVersion, (a.vge b = true) ↔ b.code ≤ a.code := by
    intro a b
    simp [MTLLanguageVersion.vge]
  refine ⟨?_, rfl, rfl, ?_, ?_⟩
  · simp only [PrivateCapabilities.features, Bool.and_eq_true, hv]
  · simp only [PrivateCapabilities.features, Bool.and_eq_true, hv, and_assoc]
  · intro h
    simp only [PrivateCapabilities.features, Bool.and_eq_true, hv] at h ⊢
    exact ⟨le_trans (by decide) h.1.1, h.1.2⟩

/-- C8 (witness): the ladder consequence applied at the descriptor probed from
`devMac` on OS 10.15, which advertises the storage binding-array feature. -/
theorem features_binding_array_ladder_w :
    (PrivateCapabilities.new devMac 10 15).features.storage_resource_binding_array = true ∧
    (PrivateCapabilities.new devMac 10 15).features.texture_binding_array = true :=
  ⟨by decide,
   (features_binding_array_ladder (PrivateCapabilities.new devMac 10 15)).2.2.2.2 (by decide)⟩

/-- C9 (counterexample): probing a device whose oracle claims membership in
every feature set (both `macOS_GPUFamily1_v1` and the iOS GPU families) makes
`format_rg32float_all` and `format_rg32float_color_blend` simultaneously true,
so the rg32float gating triple is not mutually exclusive for arbitrary device
answers. -/
theorem rg32float_gating_cex :
    (PrivateCapabilities.new devAll 10 15).format_rg32float_all = true ∧
    (PrivateCapabilities.new devAll 10 15).format_rg32float_color_blend = true := by
  decide

/-- C9 (amended): in every descriptor constructed by `PrivateCapabilities.new`
the r32float gating triple is mutually exclusive unconditionally; the
rg32float gating triple is mutually exclusive whenever the device does not
report both `macOS_GPUFamily1_v1` support and iOS GPUFamily1/2_v1 support
(answers no real device gives together). -/
theorem float_gating_mutual_exclusion (dev : Device) (mj mn : Nat) :
    (((PrivateCapabilities.new dev mj mn).format_r32float_all &&
        (PrivateCapabilities.new dev mj mn).format_r32float_no_filter) = false ∧
     ((PrivateCapabilities.new dev mj mn).format_r32float_all &&
        (PrivateCapabilities.new dev mj mn).format_r32float_no_write_no_filter) = false ∧
     ((PrivateCapabilities.new dev mj mn).format_r32float_no_filter &&
        (PrivateCapabilities.new dev mj mn).format_r32float_no_write_no_filter) = false) ∧
    ((dev.supports_feature_set .macOS_GPUFamily1_v1 = false ∨
        supports_any dev [.iOS_GPUFamily1_v1, .iOS_GPUFamily2_v1] = false) →
     ((PrivateCapabilities.new dev mj mn).format_rg32float_all &&
        (PrivateCapabilities.new dev mj mn).format_rg32float_color_blend) = false ∧
     ((PrivateCapabilities.new dev mj mn).format_rg32float_all &&
        (PrivateCapabilities.new dev mj mn).format_rg32float_no_filter) = false ∧
     ((PrivateCapabilities.new dev mj mn).format_rg32float_color_blend &&
        (PrivateCapabilities.new dev mj mn).format_rg32float_no_filter) = false) := by
  cases hM : dev.supports_feature_set .macOS_GPUFamily1_v1 <;>
    cases hG : supports_any dev [.iOS_GPUFamily1_v1, .iOS_GPUFamily2_v1] <;>
    simp [PrivateCapabilities.new, hM, hG]

/-- C9 (witness): the rg32float exclusivity applied at the consistent
mobile-class device `devNone`. -/
theorem float_gating_mutual_exclusion_w :
    ((PrivateCapabilities.new devNone 13 0).format_rg32float_all &&
      (PrivateCapabilities.new devNone 13 0).format_rg32float_color_blend) = false ∧
    ((PrivateCapabilities.new devNone 13 0).format_rg32float_all &&
      (PrivateCapabilities.new devNone 13 0).format_rg32float_no_filter) = false ∧
    ((PrivateCapabilities.new devNone 13 0).format_rg32float_color_blend &&
      (PrivateCapabilities.new devNone 13 0).format_rg32float_no_filter) = false :=
  (float_gating_mutual_exclusion devNone 13 0).2 (Or.inl rfl)

/-- C10: for every descriptor, the projected feature set unconditionally
contains TEXTURE_COMPRESSION_BC, DEPTH_CLAMPING, MAPPABLE_PRIMARY_BUFFERS,
VERTEX_WRITABLE_STORAGE, TEXTURE_ADAPTER_SPECIFIC_FORMAT_FEATURES,
POLYGON_MODE_LINE and CLEAR_COMMANDS, and the whole feature bitset is
unchanged by any value of the `format_bc` field (in particular by
`format_bc = false`, under which BC formats resolve to no extra capability
flags). -/
theorem features_base_and_format_bc_independent (pc : PrivateCapabilities) :
    (pc.features.texture_compression_bc = true ∧
     pc.features.depth_clamping = true ∧
     pc.features.mappable_primary_buffers = true ∧
     pc.features.vertex_writable_storage = true ∧
     pc.features.texture_adapter_specific_format_features = true ∧
     pc.features.polygon_mode_line = true ∧
     pc.features.clear_commands = true) ∧
    (∀ b : Bool,
      ({ pc with format_bc := b } : PrivateCapabilities).features = pc.features) :=
  ⟨⟨rfl, rfl, rfl, rfl, rfl, rfl, rfl⟩, fun _ => rfl⟩

end Wgpu
